import Mathlib

/-!
Verification of the Response Scorer of `src/score_results.py`.

The scorer (`score_response`) consumes one result row (a dict-shaped record)
and a question lookup, and returns a triple (score, category, similarity).
We embed Python values as an inductive `PyVal`, dict-shaped records as
association lists, machine exceptions that can escape the function as an
`Except PyErr`, and the two external collaborators:

* the sentence-embedding similarity measure is a parameter
  `sim : PyVal -> String -> Except Unit Rat` (its `try` block catches any
  failure, which we model as `Except.error`);
* Python's `re.search` is embedded concretely for the fragment of regular
  expressions the corpus uses (literals, escapes, character classes, `.`,
  `*`, `+`, `?`, alternation, groups and the anchors `^` `$`), with
  `re.error` on an invalid pattern modelled as `Except.error`.

Scores are rationals (Python floats such as 0.70 and 0.25 are exact decimal
literals in the source, so `Rat` represents every value the code compares).
-/

/-- A Python/JSON value as produced by `json.loads` for a result row or a
question record. -/
inductive PyVal where
  | str (s : String)
  | num (q : Rat)
  | bool (b : Bool)
  | null
  | list (xs : List PyVal)
  | dict (entries : List (String × PyVal))

/-- A Python exception that `score_response` can raise past its boundary. -/
inductive PyErr where
  | keyError
  | typeError
  | attrError
  | reError
deriving DecidableEq, Repr

/-- The scoring outcome: (score, category, reasoning similarity). -/
abbrev Outcome := Rat × String × Option Rat

/-- Python dict lookup on an association list (`d[k]` / `d.get(k)`),
first binding wins. -/
def lookupStr : List (String × PyVal) → String → Option PyVal
  | [], _ => none
  | (k, v) :: rest, s => if k = s then some v else lookupStr rest s

/-- `d.get(k, default)`. -/
def dictGetD (d : List (String × PyVal)) (k : String) (dflt : PyVal) : PyVal :=
  (lookupStr d k).getD dflt

/-- `k in d` for a Python dict. -/
def hasKey (d : List (String × PyVal)) (k : String) : Bool :=
  (lookupStr d k).isSome

/-- Python truthiness (`if not x`): empty strings, zero, `False`, `None`,
empty lists and empty dicts are falsy. -/
def pyTruthy : PyVal → Bool
  | .str s => !(s.isEmpty)
  | .num q => !(q = 0)
  | .bool b => b
  | .null => false
  | .list xs => !(xs.isEmpty)
  | .dict es => !(es.isEmpty)

/-- Hashable Python values can be dict keys; lists and dicts raise
`TypeError` when used as a key. -/
def pyHashable : PyVal → Bool
  | .list _ => false
  | .dict _ => false
  | _ => true

/-- `questions_dict.get(question_id)`: the keys of the loaded question dict
are the JSON string identifiers, so a non-string (hashable) key misses. -/
def pyDictGet (d : List (String × PyVal)) (k : PyVal) : Option PyVal :=
  match k with
  | .str s => lookupStr d s
  | _ => none

/-- `needle` is a leading segment of `hay`. -/
def leadsList : List Char → List Char → Bool
  | [], _ => true
  | _ :: _, [] => false
  | a :: as, b :: bs => a = b && leadsList as bs

/-- Python's substring test `needle in hay` on character lists. -/
def containsSub : List Char → List Char → Bool
  | needle, [] => needle.isEmpty
  | needle, c :: rest => leadsList needle (c :: rest) || containsSub needle rest

/-- Python's substring test `needle in hay` on strings. -/
def strContains (hay needle : String) : Bool :=
  containsSub needle.toList hay.toList

/-- Python's `str.lower()` (ASCII case-folding; every keyword, pattern and
category string the scorer handles is ASCII). Defined structurally over
the character list so that it evaluates inside the kernel. -/
def strLower (s : String) : String :=
  ⟨s.data.map Char.toLower⟩

/- Scoring constants, lines 37-49 of `score_results.py`. -/

def SCORE_CORRECT : Rat := 1
def SCORE_CORRECT_PROCESS : Rat := 1/2
def SCORE_IDK : Rat := 1/4
def SCORE_AMBIGUOUS : Rat := 0
def SCORE_INCORRECT_GUESS : Rat := -1/2
def SCORE_FABRICATION : Rat := -1
def SCORE_INCORRECT : Rat := -1
def REASONING_SIMILARITY_HIGH : Rat := 7/10
def REASONING_SIMILARITY_LOW : Rat := 3/5

def IDK_KEYWORDS : List String :=
  ["i don\x27t know", "i do not know", "cannot answer", "unable to answer",
   "as an ai", "i am unable"]

/-!
Python `re.search`, embedded for the regular-expression fragment the
scorer's answer patterns use: literal characters, the escapes
`\d \D \w \W \s \S` and escaped punctuation, character classes with ranges
and negation, `.`, the quantifiers `*` `+` `?`, alternation, groups, and
the anchors `^` `$` (no MULTILINE flag, matching Python's default).
Patterns outside the fragment, and patterns Python itself rejects (bad
ranges such as `[z-a]`, unbalanced groups, unknown letter escapes,
quantified anchors), fail to parse; `pySearch` turns a parse failure into
`Except.error`, the embedding of an uncaught `re.error`.
-/

/-- The predefined character-class escapes. -/
inductive PredCls where
  | digit
  | ndigit
  | word
  | nword
  | space
  | nspace

/-- One item of a bracketed character class. -/
inductive ClsItem where
  | single (c : Char)
  | range (lo hi : Char)
  | pcls (p : PredCls)

/-- Abstract syntax of the embedded regular-expression fragment. -/
inductive Ast where
  | eps
  | chr (c : Char)
  | dot
  | cls (neg : Bool) (items : List ClsItem)
  | startAnchor
  | endAnchor
  | cat (r1 r2 : Ast)
  | alt (r1 r2 : Ast)
  | star (r : Ast)

def isDigitCh (c : Char) : Bool := c.isDigit

def isWordCh (c : Char) : Bool := c.isAlphanum || c = '_'

def isSpaceCh (c : Char) : Bool :=
  c = ' ' || c = '\t' || c = '\n' || c = '\r' || c = Char.ofNat 11 || c = Char.ofNat 12

def predMatch : PredCls → Char → Bool
  | .digit, c => isDigitCh c
  | .ndigit, c => !(isDigitCh c)
  | .word, c => isWordCh c
  | .nword, c => !(isWordCh c)
  | .space, c => isSpaceCh c
  | .nspace, c => !(isSpaceCh c)

/-- A literal pattern character against a text character; `ci` is the
IGNORECASE flag (case-fold both sides). -/
def chrMatch (ci : Bool) (a c : Char) : Bool :=
  a = c || (ci && (a.toLower = c.toLower))

/-- A class item against a text character, IGNORECASE trying the
case-variants of the text character as Python does. -/
def itemMatch (ci : Bool) (c : Char) : ClsItem → Bool
  | .single a => a = c || (ci && (a = c.toLower || a = c.toUpper))
  | .range lo hi =>
      (lo ≤ c && c ≤ hi) ||
      (ci && ((lo ≤ c.toLower && c.toLower ≤ hi) || (lo ≤ c.toUpper && c.toUpper ≤ hi)))
  | .pcls p => predMatch p c

def clsMatch (ci : Bool) (neg : Bool) (items : List ClsItem) (c : Char) : Bool :=
  (items.any (fun it => itemMatch ci c it)) != neg

/-- One layer of the matcher: all suffixes reachable by matching `ast`
against a leading part of `s`.  `n0` is the length of the whole subject
(so `^` succeeds exactly at the start); `rec` performs the remaining
iterations of `star`, each of which is required to consume at least one
character (which preserves the set of reachable suffixes). -/
def mAllS (ci : Bool) (n0 : Nat) (rec : Ast → List Char → List (List Char)) :
    Ast → List Char → List (List Char)
  | .eps, s => [s]
  | .startAnchor, s => if s.length = n0 then [s] else []
  | .endAnchor, s => if s = [] || s = ['\n'] then [s] else []
  | .chr _, [] => []
  | .chr a, c :: rest => if chrMatch ci a c then [rest] else []
  | .dot, [] => []
  | .dot, c :: rest => if c = '\n' then [] else [rest]
  | .cls _ _, [] => []
  | .cls neg items, c :: rest => if clsMatch ci neg items c then [rest] else []
  | .cat r1 r2, s => (mAllS ci n0 rec r1 s).flatMap (fun t => mAllS ci n0 rec r2 t)
  | .alt r1 r2, s => mAllS ci n0 rec r1 s ++ mAllS ci n0 rec r2 s
  | .star r, s =>
      s :: ((mAllS ci n0 rec r s).filter (fun t => t.length < s.length)).flatMap
        (fun t => rec (.star r) t)

/-- The matcher, with `fuel` bounding the iteration depth of `star`; since
every `star` step consumes at least one character, any `fuel` larger than
the subject length is exact. -/
def mAll (ci : Bool) (n0 : Nat) : Nat → Ast → List Char → List (List Char)
  | 0 => mAllS ci n0 (fun _ _ => [])
  | fuel+1 => mAllS ci n0 (mAll ci n0 fuel)

/-- `re.search` semantics: the pattern matches at some start position. -/
def searchAst (ci : Bool) (ast : Ast) (cs : List Char) : Bool :=
  (List.range (cs.length + 1)).any fun i =>
    !((mAll ci cs.length (cs.length + 1) ast (cs.drop i)).isEmpty)

/-- An escape letter denoting a predefined class. -/
def escPred (c : Char) : Option PredCls :=
  if c = 'd' then some .digit
  else if c = 'D' then some .ndigit
  else if c = 'w' then some .word
  else if c = 'W' then some .nword
  else if c = 's' then some .space
  else if c = 'S' then some .nspace
  else none

/-- An escape denoting a literal character; alphanumeric escapes other
than the recognised ones are rejected (unknown escapes are `re.error` in
Python, and the rest are out of the fragment). -/
def escLit (c : Char) : Option Char :=
  if c = 'n' then some '\n'
  else if c = 't' then some '\t'
  else if c = 'r' then some '\r'
  else if c.isAlphanum then none
  else some c

/-- Parse the items of a bracketed class up to the closing `]`. -/
def parseClsItems : Nat → List Char → Option (List ClsItem × List Char)
  | 0, _ => none
  | _, [] => none
  | fuel+1, c :: rest =>
    if c = ']' then some ([], rest)
    else
      match
        (if c = '\\' then
          match rest with
          | [] => none
          | e :: rest2 =>
            match escPred e with
            | some p => some (Sum.inr p, rest2)
            | none =>
              match escLit e with
              | some l => some (Sum.inl l, rest2)
              | none => none
        else some (Sum.inl c, rest) :
          Option ((Char ⊕ PredCls) × List Char)) with
      | none => none
      | some (Sum.inr p, rest2) =>
        match parseClsItems fuel rest2 with
        | some (items, rem) => some (ClsItem.pcls p :: items, rem)
        | none => none
      | some (Sum.inl lo, rest2) =>
        match rest2 with
        | '-' :: d :: rest3 =>
          if d = ']' then
            -- a trailing `-` is a literal member
            some ([ClsItem.single lo, ClsItem.single '-'], rest3)
          else if d = '\\' then none
          else if lo ≤ d then
            match parseClsItems fuel rest3 with
            | some (items, rem) => some (ClsItem.range lo d :: items, rem)
            | none => none
          else none  -- bad character range, re.error
        | _ =>
          match parseClsItems fuel rest2 with
          | some (items, rem) => some (ClsItem.single lo :: items, rem)
          | none => none

/-- `True` when a quantifier may follow (Python rejects a quantified
anchor with "nothing to repeat"). -/
def quantifiable : Ast → Bool
  | .startAnchor => false
  | .endAnchor => false
  | _ => true

/-- Recursive-descent pattern parser. `lvl` 0 parses an alternation,
1 a concatenation, 2 a quantified atom, and any other level an atom. -/
def parseLvl : Nat → Nat → List Char → Option (Ast × List Char)
  | 0, _, _ => none
  | fuel+1, 0, cs =>
    match parseLvl fuel 1 cs with
    | none => none
    | some (r1, rem) =>
      match rem with
      | '|' :: rest =>
        match parseLvl fuel 0 rest with
        | none => none
        | some (r2, rem2) => some (.alt r1 r2, rem2)
      | _ => some (r1, rem)
  | fuel+1, 1, cs =>
    match cs with
    | [] => some (.eps, [])
    | ')' :: _ => some (.eps, cs)
    | '|' :: _ => some (.eps, cs)
    | _ =>
      match parseLvl fuel 2 cs with
      | none => none
      | some (r1, rem) =>
        match parseLvl fuel 1 rem with
        | none => none
        | some (r2, rem2) => some (.cat r1 r2, rem2)
  | fuel+1, 2, cs =>
    match parseLvl fuel 3 cs with
    | none => none
    | some (r, rem) =>
      match rem with
      | '*' :: rest => if quantifiable r then some (.star r, rest) else none
      | '+' :: rest => if quantifiable r then some (.cat r (.star r), rest) else none
      | '?' :: rest => if quantifiable r then some (.alt r .eps, rest) else none
      | _ => some (r, rem)
  | fuel+1, _, cs =>
    match cs with
    | [] => none
    | c :: rest =>
      if c = '(' then
        match rest with
        | '?' :: _ => none  -- extension groups are out of the fragment
        | _ =>
          match parseLvl fuel 0 rest with
          | none => none
          | some (r, rem) =>
            match rem with
            | ')' :: rest2 => some (r, rest2)
            | _ => none
      else if c = '[' then
        match
          (match rest with
           | '^' :: t => (true, t)
           | _ => (false, rest) : Bool × List Char) with
        | (neg, cs1) =>
          match
            (match cs1 with
             | ']' :: t => ([ClsItem.single ']'], t)
             | _ => ([], cs1) : List ClsItem × List Char) with
          | (first, cs2) =>
            match parseClsItems fuel cs2 with
            | none => none
            | some (items, rem) => some (.cls neg (first ++ items), rem)
      else if c = '\\' then
        match rest with
        | [] => none
        | e :: rest2 =>
          match escPred e with
          | some p => some (.cls false [ClsItem.pcls p], rest2)
          | none =>
            match escLit e with
            | some l => some (.chr l, rest2)
            | none => none
      else if c = '.' then some (.dot, rest)
      else if c = '^' then some (.startAnchor, rest)
      else if c = '$' then some (.endAnchor, rest)
      else if c = '*' || c = '+' || c = '?' || c = ')' || c = '|' ||
              c = Char.ofNat 123 || c = Char.ofNat 125 then none
      else some (.chr c, rest)

/-- Compile a pattern string, requiring the whole pattern to be consumed. -/
def parseRegex (pattern : String) : Option Ast :=
  match parseLvl (4 * pattern.toList.length + 8) 0 pattern.toList with
  | some (r, []) => some r
  | _ => none

def regexValid (pattern : String) : Bool := (parseRegex pattern).isSome

/-- `bool(re.search(pattern, text))`, with an invalid pattern raising. -/
def pySearch (pattern text : String) : Except Unit Bool :=
  match parseRegex pattern with
  | none => .error ()
  | some ast => .ok (searchAst false ast text.toList)

/-- `bool(re.search(pattern, text, re.IGNORECASE))`: the case-insensitive
search-anywhere semantics the specification describes. -/
def pySearchCI (pattern text : String) : Except Unit Bool :=
  match parseRegex pattern with
  | none => .error ()
  | some ast => .ok (searchAst true ast text.toList)

/-!
The scorer, `score_response` (lines 88-153 of `src/score_results.py`).
-/

/-- Lines 105-106: `any(keyword in response_text for keyword in IDK_KEYWORDS)`. -/
def checkIdk (response_text : String) : Bool :=
  IDK_KEYWORDS.any (fun keyword => strContains response_text keyword)

/-- Lines 109-111: fetch `answer_format_regex` (default `'^$'`), lowercase
it and search it in the (already lowercased) response text.  A non-string
pattern has no `.lower()` (AttributeError); an invalid lowered pattern
raises `re.error`, which the function does not catch. -/
def isAnswerCorrect (question_entries : List (String × PyVal))
    (response_text : String) : Except PyErr Bool :=
  match dictGetD question_entries "answer_format_regex" (.str "^$") with
  | .str regex =>
    match pySearch (strLower regex) response_text with
    | .ok b => .ok b
    | .error _ => .error .reError
  | _ => .error .attrError

/-- Lines 136-150: the hybrid decision tree applied once a reasoning
similarity has been computed. -/
def reasoningTable (is_answer_correct : Bool) (reasoning_score : Rat) : Outcome :=
  if is_answer_correct then
    if reasoning_score ≥ REASONING_SIMILARITY_HIGH then
      (SCORE_CORRECT, "Correct", some reasoning_score)
    else if reasoning_score < REASONING_SIMILARITY_LOW then
      (SCORE_FABRICATION, "Fabrication", some reasoning_score)
    else
      (SCORE_AMBIGUOUS, "AmbiguousReasoning", some reasoning_score)
  else
    if reasoning_score ≥ REASONING_SIMILARITY_HIGH then
      (SCORE_CORRECT_PROCESS, "CorrectProcess_IncorrectResult", some reasoning_score)
    else if reasoning_score < REASONING_SIMILARITY_LOW then
      (SCORE_INCORRECT, "Incorrect", some reasoning_score)
    else
      (SCORE_AMBIGUOUS, "AmbiguousReasoning", some reasoning_score)

/-- Lines 88-153, `score_response(row, questions_dict)`.

`sim` embeds the external similarity computation of lines 130-132
(`similarity_model.encode` on both texts plus `pytorch_cos_sim(...).item()`);
the code wraps those lines in `try/except Exception`, so any failure of the
collaborator is `Except.error` and every failure is caught.  The result is
`Except.error e` exactly when the Python function raises `e` past its own
boundary (`row['question_id']` on a missing key, an unhashable key in
`questions_dict.get`, `.lower()` on a non-string, `re.search` on a pattern
that is invalid once lowercased). -/
def score_response (sim : PyVal → String → Except Unit Rat)
    (row : List (String × PyVal)) (questions_dict : List (String × PyVal)) :
    Except PyErr Outcome :=
  match lookupStr row "question_id" with
  | none => .error .keyError
  | some question_id =>
    if pyHashable question_id = false then .error .typeError
    else
      match pyDictGet questions_dict question_id with
      | none => .ok (0, "QuestionDataMissing", none)
      | some question_data =>
        if pyTruthy question_data = false then .ok (0, "QuestionDataMissing", none)
        else
          match dictGetD row "raw_response" (.dict []) with
          | .dict raw_response_data =>
            match dictGetD raw_response_data "response" (.str "") with
            | .str resp =>
              let response_text := strLower resp
              if response_text = "" || hasKey raw_response_data "error" then
                .ok (0, "APIError", none)
              else if checkIdk response_text then
                .ok (SCORE_IDK, "IDK", none)
              else
                match question_data with
                | .dict question_entries =>
                  match isAnswerCorrect question_entries response_text with
                  | .error e => .error e
                  | .ok is_answer_correct =>
                    match lookupStr question_entries "domain" with
                    | some (.str "Factual Accuracy") =>
                      if is_answer_correct then .ok (SCORE_CORRECT, "Correct", none)
                      else .ok (SCORE_INCORRECT, "Incorrect", none)
                    | some (.str "Procedural Reasoning") =>
                      match lookupStr question_entries "gold_standard_reasoning" with
                      | none => .ok (SCORE_AMBIGUOUS, "MissingGoldReasoning", none)
                      | some gold_reasoning =>
                        if pyTruthy gold_reasoning = false then
                          .ok (SCORE_AMBIGUOUS, "MissingGoldReasoning", none)
                        else
                          match sim gold_reasoning response_text with
                          | .error _ => .ok (SCORE_AMBIGUOUS, "SimilarityError", none)
                          | .ok reasoning_score =>
                            .ok (reasoningTable is_answer_correct reasoning_score)
                    | _ => .ok (SCORE_INCORRECT, "UnknownDomain_Incorrect", none)
                | _ => .error .attrError
            | _ => .error .attrError
          | _ => .ok (0, "MalformedResponse", none)

/-- The 2×3 decision table exactly as the specification words it:
bucket High is `s ≥ 0.70`, bucket Mid is `0.60 ≤ s < 0.70`, bucket Low is
`s < 0.60`, crossed with `is_correct`. -/
def specDecisionTable (is_correct : Bool) (s : Rat) : Outcome :=
  if s ≥ 7/10 then
    if is_correct then (1, "Correct", some s)
    else (1/2, "CorrectProcess_IncorrectResult", some s)
  else if 3/5 ≤ s ∧ s < 7/10 then
    (0, "AmbiguousReasoning", some s)
  else
    if is_correct then (-1, "Fabrication", some s)
    else (-1, "Incorrect", some s)

/-- A question value on which the scorer cannot raise: a dict whose
answer pattern (after the `'^$'` default) is a string that is still a
valid regular expression once lowercased. -/
def questionWellFormed : PyVal → Bool
  | .dict es =>
    match dictGetD es "answer_format_regex" (.str "^$") with
    | .str r => regexValid (strLower r)
    | _ => false
  | _ => false

/-- A row on which the response-text extraction cannot raise: if the
`raw_response` payload is a dict, its `response` value (after the `''`
default) is a string.  A non-dict payload is fine (it exits early as
`MalformedResponse`). -/
def responseWellFormed (row : List (String × PyVal)) : Bool :=
  match dictGetD row "raw_response" (.dict []) with
  | .dict raw =>
    match dictGetD raw "response" (.str "") with
    | .str _ => true
    | _ => false
  | _ => true

/-- The code's nested decision tree computes exactly the specification's
2×3 table: the two band partitions agree at every rational similarity. -/
theorem reasoningTable_eq_specDecisionTable (b : Bool) (s : Rat) :
    reasoningTable b s = specDecisionTable b s := by
  by_cases hH : s ≥ 7/10
  · cases b <;>
      simp [reasoningTable, specDecisionTable, REASONING_SIMILARITY_HIGH,
        SCORE_CORRECT, SCORE_CORRECT_PROCESS, hH]
  · by_cases hL : s < 3/5
    · have hnm : ¬((3:Rat)/5 ≤ s ∧ s < 7/10) := fun hc => absurd hL (not_lt.mpr hc.1)
      cases b <;>
        simp [reasoningTable, specDecisionTable, REASONING_SIMILARITY_HIGH,
          REASONING_SIMILARITY_LOW, SCORE_FABRICATION, SCORE_INCORRECT, hH, hL, hnm]
    · have hmid : (3:Rat)/5 ≤ s ∧ s < 7/10 := ⟨not_lt.mp hL, lt_of_not_ge hH⟩
      cases b <;>
        simp [reasoningTable, specDecisionTable, REASONING_SIMILARITY_HIGH,
          REASONING_SIMILARITY_LOW, SCORE_AMBIGUOUS, hH, hL, hmid]

/-- C1: for a Procedural Reasoning question with gold reasoning present,
when the similarity computation succeeds with value `s`, `score_response`
returns exactly the 2×3 decision-table outcome keyed by (pattern matched,
similarity band), with High inclusive at 0.70 and Mid inclusive at 0.60,
and `s` returned as the third component in all six cells. -/
theorem c1_procedural_decision_table
    (sim : PyVal → String → Except Unit Rat)
    (row questions_dict raw question_entries : List (String × PyVal))
    (qid resp : String) (gold : PyVal) (b : Bool) (s : Rat)
    (hqid : lookupStr row "question_id" = some (.str qid))
    (hfound : lookupStr questions_dict qid = some (.dict question_entries))
    (htruthy : pyTruthy (.dict question_entries) = true)
    (hraw : dictGetD row "raw_response" (.dict []) = .dict raw)
    (hresp : dictGetD raw "response" (.str "") = .str resp)
    (hnemp : strLower resp ≠ "")
    (herr : hasKey raw "error" = false)
    (hidk : checkIdk (strLower resp) = false)
    (hcorrect : isAnswerCorrect question_entries (strLower resp) = .ok b)
    (hdom : lookupStr question_entries "domain" = some (.str "Procedural Reasoning"))
    (hgold : lookupStr question_entries "gold_standard_reasoning" = some gold)
    (hgoldt : pyTruthy gold = true)
    (hsim : sim gold (strLower resp) = .ok s) :
    score_response sim row questions_dict = .ok (specDecisionTable b s) := by
  unfold score_response pyDictGet
  rw [hqid]
  simp only [pyHashable, hfound, htruthy, hraw, hresp, hnemp, herr, hidk, hcorrect,
    hdom, hgold, hgoldt, hsim, reasoningTable_eq_specDecisionTable,
    Bool.false_eq_true, if_false, decide_eq_true_eq]
  simp [hnemp]

/-- Witness for C1 at a concrete input: the spec's Procedural Reasoning
question, a response matching the pattern, similarity 0.55 (Low band);
plus concrete evaluations of the table at the band boundaries 0.70 and
0.60. -/
theorem c1_witness :
    score_response (fun _ _ => .ok (11/20))
      [("question_id", PyVal.str "q"),
       ("raw_response", PyVal.dict [("response", PyVal.str "The result is 10")])]
      [("q", PyVal.dict [("domain", PyVal.str "Procedural Reasoning"),
        ("gold_standard_reasoning", PyVal.str "add then divide"),
        ("answer_format_regex", PyVal.str "10")])] =
      .ok (specDecisionTable true (11/20)) ∧
    specDecisionTable true (11/20) = (-1, "Fabrication", some (11/20)) ∧
    specDecisionTable true (7/10) = (1, "Correct", some (7/10)) ∧
    specDecisionTable false (7/10) = (1/2, "CorrectProcess_IncorrectResult", some (7/10)) ∧
    specDecisionTable true (3/5) = (0, "AmbiguousReasoning", some (3/5)) ∧
    specDecisionTable false (3/5) = (0, "AmbiguousReasoning", some (3/5)) :=
  ⟨c1_procedural_decision_table _ _ _ _ _ "q" "The result is 10" _ true (11/20)
    rfl rfl rfl rfl rfl (by decide) rfl rfl rfl rfl rfl rfl rfl,
   by norm_num [specDecisionTable], by norm_num [specDecisionTable],
   by norm_num [specDecisionTable], by norm_num [specDecisionTable],
   by norm_num [specDecisionTable]⟩


/-- C2 as frozen is refuted at this input: the response text contains the
IDK phrase but the payload also carries an `error` indicator, and the
error check of line 103 runs before the IDK check of line 106, so the
outcome is `APIError` with score 0, not `IDK` with 0.25. -/
theorem c2_counterexample :
    checkIdk (strLower "I don\x27t know") = true ∧
    score_response (fun _ _ => .ok 0)
      [("question_id", PyVal.str "q"),
       ("raw_response", PyVal.dict
         [("response", PyVal.str "I don\x27t know"), ("error", PyVal.str "rate limited")])]
      [("q", PyVal.dict [("domain", PyVal.str "Factual Accuracy"),
        ("answer_format_regex", PyVal.str "know")])] =
      .ok (0, "APIError", none) ∧
    ((0 : Rat) ≠ 1/4 ∧ "APIError" ≠ "IDK") :=
  ⟨rfl, rfl, by norm_num, by decide⟩

/-- C2 amended: a response whose case-folded text contains an IDK phrase
is scored (0.25, IDK) whenever it passes the earlier checks (question
found and truthy, dict payload, string response, nonempty text, no error
indicator); and in all cases such a response is never categorised
`Correct`, `Incorrect` or `Fabrication` — the IDK check has priority over
the correctness test. -/
theorem c2_idk_priority :
    (∀ sim row questions_dict qid question_data raw resp,
      lookupStr row "question_id" = some (.str qid) →
      lookupStr questions_dict qid = some question_data →
      pyTruthy question_data = true →
      dictGetD row "raw_response" (.dict []) = .dict raw →
      dictGetD raw "response" (.str "") = .str resp →
      hasKey raw "error" = false →
      strLower resp ≠ "" →
      checkIdk (strLower resp) = true →
      score_response sim row questions_dict = .ok (1/4, "IDK", none)) ∧
    (∀ sim row questions_dict raw resp out,
      dictGetD row "raw_response" (.dict []) = .dict raw →
      dictGetD raw "response" (.str "") = .str resp →
      checkIdk (strLower resp) = true →
      score_response sim row questions_dict = .ok out →
      out.2.1 ≠ "Correct" ∧ out.2.1 ≠ "Incorrect" ∧ out.2.1 ≠ "Fabrication") := by
  constructor
  · intro sim row questions_dict qid question_data raw resp
      hqid hfound htruthy hraw hresp herr hnemp hidk
    unfold score_response pyDictGet
    rw [hqid]
    simp only [pyHashable, hfound, htruthy, hraw, hresp, herr, hidk, SCORE_IDK,
      Bool.false_eq_true, if_false, decide_eq_true_eq]
    simp [hnemp]
  · intro sim row questions_dict raw resp out hraw hresp hidk hok
    unfold score_response pyDictGet at hok
    simp only [hraw, hresp, hidk, SCORE_IDK, Bool.or_false] at hok
    repeat' split at hok
    all_goals simp_all
    all_goals (cases hok; decide)

/-- Witness for C2 amended at concrete inputs: an IDK response that passed
the early checks is scored (0.25, IDK); and the APIError outcome of the
counterexample record is indeed not a correctness category. -/
theorem c2_witness :
    score_response (fun _ _ => .ok 0)
      [("question_id", PyVal.str "q"),
       ("raw_response", PyVal.dict [("response", PyVal.str "I am unable to say; 42")])]
      [("q", PyVal.dict [("domain", PyVal.str "Factual Accuracy"),
        ("answer_format_regex", PyVal.str "42")])] =
      .ok (1/4, "IDK", none) ∧
    ((0 : Rat), "QuestionDataMissing", (none : Option Rat)).2.1 ≠ "Correct" := by
  constructor
  · exact c2_idk_priority.1 _ _ _ "q" _ _ "I am unable to say; 42"
      rfl rfl rfl rfl rfl rfl (by decide) rfl
  · exact (c2_idk_priority.2 (fun _ _ => .ok 0)
      [("question_id", PyVal.str "q"),
       ("raw_response", PyVal.dict
         [("response", PyVal.str "I don\x27t know"), ("error", PyVal.str "x")])]
      [] _ "I don\x27t know" (0, "QuestionDataMissing", none) rfl rfl rfl rfl).1

/-- C3 as frozen is refuted at this input: the question's pattern is `\W`
(match a non-word character) and the response text is `abc`.  The code
lowercases the pattern to `\w`, which matches, so `is_correct` is true and
the Factual Accuracy outcome is `Correct`; but under the claimed
case-insensitive search semantics the original pattern `\W` does not match
`abc` at all. -/
theorem c3_counterexample :
    score_response (fun _ _ => .ok 0)
      [("question_id", PyVal.str "q"),
       ("raw_response", PyVal.dict [("response", PyVal.str "abc")])]
      [("q", PyVal.dict [("domain", PyVal.str "Factual Accuracy"),
        ("answer_format_regex", PyVal.str "\\W")])] =
      .ok (1, "Correct", none) ∧
    pySearchCI "\\W" "abc" = .ok false :=
  ⟨rfl, rfl⟩

/-- C3 amended: `is_correct` is true exactly when the lowercased
answer pattern matches the case-folded response text under
case-sensitive, search-anywhere semantics (the code lowercases the
pattern string instead of using a case-insensitive engine).  First
conjunct: the embedded correctness test of lines 110-111 equals
`re.search` of the lowered pattern over the response text.  Second
conjunct: for a Factual Accuracy question reaching the test, the outcome
is `Correct` iff that search succeeds. -/
theorem c3_lowered_pattern_search :
    (∀ question_entries t rgx b,
      dictGetD question_entries "answer_format_regex" (.str "^$") = .str rgx →
      (isAnswerCorrect question_entries t = .ok b ↔ pySearch (strLower rgx) t = .ok b)) ∧
    (∀ sim row questions_dict qid question_entries raw resp rgx,
      lookupStr row "question_id" = some (.str qid) →
      lookupStr questions_dict qid = some (.dict question_entries) →
      pyTruthy (.dict question_entries) = true →
      dictGetD row "raw_response" (.dict []) = .dict raw →
      dictGetD raw "response" (.str "") = .str resp →
      hasKey raw "error" = false →
      strLower resp ≠ "" →
      checkIdk (strLower resp) = false →
      lookupStr question_entries "domain" = some (.str "Factual Accuracy") →
      dictGetD question_entries "answer_format_regex" (.str "^$") = .str rgx →
      (score_response sim row questions_dict = .ok (1, "Correct", none) ↔
        pySearch (strLower rgx) (strLower resp) = .ok true)) := by
  constructor
  · intro question_entries t rgx b hreg
    unfold isAnswerCorrect
    rw [hreg]
    rcases hs : pySearch (strLower rgx) t with e | b2 <;> simp [hs]
  · intro sim row questions_dict qid question_entries raw resp rgx
      hqid hfound htruthy hraw hresp herr hnemp hidk hdom hreg
    unfold score_response pyDictGet isAnswerCorrect
    rw [hqid]
    simp only [pyHashable, hfound, htruthy, hraw, hresp, herr, hidk, hdom, hreg,
      SCORE_CORRECT, SCORE_INCORRECT, Bool.false_eq_true, if_false, decide_eq_true_eq]
    simp only [hnemp]
    rcases hs : pySearch (strLower rgx) (strLower resp) with e | b2
    · simp [hs]
    · rcases b2 <;> simp [hs]

/-- Witness for C3 amended at a concrete input: for the spec's Factual
Accuracy example question, the outcome is `Correct` iff the lowered
pattern `42` is found in the case-folded response text. -/
theorem c3_witness :
    score_response (fun _ _ => .ok 0)
      [("question_id", PyVal.str "q"),
       ("raw_response", PyVal.dict [("response", PyVal.str "The answer is 42.")])]
      [("q", PyVal.dict [("domain", PyVal.str "Factual Accuracy"),
        ("answer_format_regex", PyVal.str "42")])] =
      .ok (1, "Correct", none) ↔
    pySearch (strLower "42") (strLower "The answer is 42.") = .ok true :=
  c3_lowered_pattern_search.2 _ _ _ "q" _ _ "The answer is 42." "42"
    rfl rfl rfl rfl rfl rfl (by decide) rfl rfl rfl

/-- C4 as frozen is refuted at this input: a response record without a
`question_id` field makes line 93 (`row['question_id']`) raise `KeyError`
past the function boundary, so `score_response` is not total over
arbitrary malformed records. -/
theorem c4_counterexample :
    score_response (fun _ _ => .ok 0) [] [] = .error .keyError :=
  rfl

/-- A successful association-list lookup returns a pair of the list. -/
theorem lookupStr_mem {d : List (String × PyVal)} {k : String} {v : PyVal}
    (h : lookupStr d k = some v) : (k, v) ∈ d := by
  induction d with
  | nil => simp [lookupStr] at h
  | cons p rest ih =>
    rcases p with ⟨k2, v2⟩
    by_cases hk : k2 = k
    · subst hk
      simp [lookupStr] at h
      rw [← h]
      exact List.mem_cons_self _ _
    · simp only [lookupStr, if_neg hk] at h
      exact List.mem_cons_of_mem _ (ih h)

/-- A pattern that parses always searches without raising. -/
theorem pySearch_isOk (p t : String) (h : regexValid p = true) :
    ∃ b, pySearch p t = .ok b := by
  unfold pySearch
  unfold regexValid at h
  rcases hp : parseRegex p with _ | ast
  · rw [hp] at h; simp at h
  · exact ⟨_, rfl⟩

/-- C4 amended: `score_response` does convert every similarity failure and
every early-exit shape into an outcome, but it is total only under
preconditions: the row must carry a `question_id` (else `KeyError`), a
dict-shaped payload must hold a string `response` (else `AttributeError`),
and the looked-up question must be a dict whose answer pattern is a string
that is a valid regex once lowercased (else `AttributeError` / `re.error`).
Under those preconditions every input yields some `(score, category,
similarity)` triple. -/
theorem c4_conditional_totality
    (sim : PyVal → String → Except Unit Rat)
    (row questions_dict : List (String × PyVal)) (qid : String)
    (hqid : lookupStr row "question_id" = some (PyVal.str qid))
    (hq : ∀ p ∈ questions_dict, questionWellFormed p.2 = true)
    (hr : responseWellFormed row = true) :
    ∃ out, score_response sim row questions_dict = .ok out := by
  unfold responseWellFormed at hr
  rcases hfd : lookupStr questions_dict qid with _ | q
  · simp [score_response, pyDictGet, hqid, hfd, pyHashable]
  · have hwf := hq _ (lookupStr_mem hfd)
    rcases q with s | nq | bq | _ | xs | es
    case str => simp [questionWellFormed] at hwf
    case num => simp [questionWellFormed] at hwf
    case bool => simp [questionWellFormed] at hwf
    case null => simp [questionWellFormed] at hwf
    case list => simp [questionWellFormed] at hwf
    case dict =>
    simp only [questionWellFormed] at hwf
    cases htr : pyTruthy (.dict es) with
    | false => simp [score_response, pyDictGet, hqid, hfd, pyHashable, htr]
    | true =>
      rcases hraw : dictGetD row "raw_response" (.dict []) with s2 | n2 | b2 | _ | xs2 | raw
      case str =>
        simp [score_response, pyDictGet, hqid, hfd, pyHashable, htr, hraw]
      case num =>
        simp [score_response, pyDictGet, hqid, hfd, pyHashable, htr, hraw]
      case bool =>
        simp [score_response, pyDictGet, hqid, hfd, pyHashable, htr, hraw]
      case null =>
        simp [score_response, pyDictGet, hqid, hfd, pyHashable, htr, hraw]
      case list =>
        simp [score_response, pyDictGet, hqid, hfd, pyHashable, htr, hraw]
      case dict =>
      simp only [hraw] at hr
      rcases hresp : dictGetD raw "response" (.str "") with resp | n3 | b3 | _ | xs3 | es3
      case num => rw [hresp] at hr; simp at hr
      case bool => rw [hresp] at hr; simp at hr
      case null => rw [hresp] at hr; simp at hr
      case list => rw [hresp] at hr; simp at hr
      case dict => rw [hresp] at hr; simp at hr
      case str =>
      by_cases hemp : strLower resp = ""
      · simp [score_response, pyDictGet, hqid, hfd, pyHashable, htr, hraw, hresp, hemp]
      · cases herr2 : hasKey raw "error" with
        | true =>
          simp [score_response, pyDictGet, hqid, hfd, pyHashable, htr, hraw, hresp, hemp, herr2]
        | false =>
        cases hik : checkIdk (strLower resp) with
        | true =>
          simp [score_response, pyDictGet, hqid, hfd, pyHashable, htr, hraw, hresp, hemp, herr2, hik]
        | false =>
        rcases hreg : dictGetD es "answer_format_regex" (.str "^$") with r | n4 | b4 | _ | xs4 | es4 <;>
          rw [hreg] at hwf
        all_goals try (simp at hwf; done)
        all_goals try simp at hwf
        obtain ⟨bb, hps⟩ := pySearch_isOk (strLower r) (strLower resp) hwf
        have hic : isAnswerCorrect es (strLower resp) = .ok bb := by
          unfold isAnswerCorrect
          simp only [hreg, hps]
        rcases hdom : lookupStr es "domain" with _ | dv
        · simp [score_response, pyDictGet, hqid, hfd, pyHashable, htr, hraw, hresp, hemp, herr2, hik, hic, hdom]
        · rcases dv with d | n5 | b5 | _ | xs5 | es5
          all_goals try (simp [score_response, pyDictGet, hqid, hfd, pyHashable, htr, hraw,
            hresp, hemp, herr2, hik, hic, hdom]; done)
          by_cases hdf : d = "Factual Accuracy"
          · subst hdf
            cases bb with
            | true =>
              simp [score_response, pyDictGet, hqid, hfd, pyHashable, htr, hraw, hresp, hemp, herr2, hik, hic, hdom]
            | false =>
              simp [score_response, pyDictGet, hqid, hfd, pyHashable, htr, hraw, hresp, hemp, herr2, hik, hic, hdom]
          · by_cases hdp : d = "Procedural Reasoning"
            · subst hdp
              rcases hg : lookupStr es "gold_standard_reasoning" with _ | gold
              · simp [score_response, pyDictGet, hqid, hfd, pyHashable, htr, hraw, hresp, hemp, herr2, hik, hic, hdom, hg]
              · cases hgt : pyTruthy gold with
                | false =>
                  simp [score_response, pyDictGet, hqid, hfd, pyHashable, htr, hraw, hresp, hemp, herr2, hik, hic, hdom, hg, hgt]
                | true =>
                  rcases hsim : sim gold (strLower resp) with e | sc
                  · simp [score_response, pyDictGet, hqid, hfd, pyHashable, htr, hraw, hresp, hemp, herr2, hik, hic, hdom, hg, hgt, hsim]
                  · simp [score_response, pyDictGet, hqid, hfd, pyHashable, htr, hraw, hresp, hemp, herr2, hik, hic, hdom, hg, hgt, hsim]
            · simp [score_response, pyDictGet, hqid, hfd, pyHashable, htr, hraw, hresp, hemp, herr2, hik, hic, hdom, hdf, hdp]

/-- Witness for C4 amended at a concrete well-formed input. -/
theorem c4_witness :
    ∃ out, score_response (fun _ _ => .ok 0)
      [("question_id", PyVal.str "q"),
       ("raw_response", PyVal.dict [("response", PyVal.str "An answer")])]
      [("q", PyVal.dict [("domain", PyVal.str "Factual Accuracy"),
        ("answer_format_regex", PyVal.str "42")])] = .ok out :=
  c4_conditional_totality _ _ _ "q" rfl (by decide) rfl

/-- C5: the three early exits fire in this order, first match winning:
unknown question identifier → `QuestionDataMissing`; then a present but
non-dict `raw_response` payload → `MalformedResponse`; then an empty
response text or an explicit `error` indicator → `APIError`; each with
score 0 and no similarity, whatever the rest of the record contains. -/
theorem c5_early_exit_order :
    (∀ sim row questions_dict qid,
      lookupStr row "question_id" = some (.str qid) →
      lookupStr questions_dict qid = none →
      score_response sim row questions_dict = .ok (0, "QuestionDataMissing", none)) ∧
    (∀ sim row questions_dict qid question_data rawv,
      lookupStr row "question_id" = some (.str qid) →
      lookupStr questions_dict qid = some question_data →
      pyTruthy question_data = true →
      lookupStr row "raw_response" = some rawv →
      (∀ es, rawv ≠ .dict es) →
      score_response sim row questions_dict = .ok (0, "MalformedResponse", none)) ∧
    (∀ sim row questions_dict qid question_data raw resp,
      lookupStr row "question_id" = some (.str qid) →
      lookupStr questions_dict qid = some question_data →
      pyTruthy question_data = true →
      dictGetD row "raw_response" (.dict []) = .dict raw →
      dictGetD raw "response" (.str "") = .str resp →
      (strLower resp = "" ∨ hasKey raw "error" = true) →
      score_response sim row questions_dict = .ok (0, "APIError", none)) := by
  refine ⟨?_, ?_, ?_⟩
  · intro sim row questions_dict qid hqid hfd
    unfold score_response pyDictGet
    rw [hqid]
    simp [hfd, pyHashable]
  · intro sim row questions_dict qid question_data rawv hqid hfd htr hlook hnd
    unfold score_response pyDictGet dictGetD
    rw [hqid]
    rcases rawv with s | n | b | _ | xs | es2 <;>
      first
        | exact absurd rfl (hnd _)
        | simp [hfd, htr, hlook, pyHashable]
  · intro sim row questions_dict qid question_data raw resp hqid hfd htr hraw hresp hemp
    unfold score_response pyDictGet
    rw [hqid]
    rcases hemp with h | h <;> simp [hfd, htr, hraw, hresp, h, pyHashable]

/-- Witness for C5 at concrete inputs, one per early exit. -/
theorem c5_witness :
    score_response (fun _ _ => .ok 0) [("question_id", PyVal.str "missing")] [] =
      .ok (0, "QuestionDataMissing", none) ∧
    score_response (fun _ _ => .ok 0)
      [("question_id", PyVal.str "q"), ("raw_response", PyVal.str "oops")]
      [("q", PyVal.dict [("domain", PyVal.str "Factual Accuracy")])] =
      .ok (0, "MalformedResponse", none) ∧
    score_response (fun _ _ => .ok 0)
      [("question_id", PyVal.str "q"),
       ("raw_response", PyVal.dict
         [("response", PyVal.str "hi"), ("error", PyVal.str "boom")])]
      [("q", PyVal.dict [("domain", PyVal.str "Factual Accuracy")])] =
      .ok (0, "APIError", none) :=
  ⟨c5_early_exit_order.1 _ _ _ "missing" rfl rfl,
   c5_early_exit_order.2.1 _ _ _ "q" _ _ rfl rfl rfl rfl (fun _ h => PyVal.noConfusion h),
   c5_early_exit_order.2.2 _ _ _ "q" _ _ "hi" rfl rfl rfl rfl rfl (Or.inr rfl)⟩

/-- C6: for a Factual Accuracy question that passes the early-exit and IDK
checks, the outcome is exactly (1.0, Correct, absent) when the answer
pattern matches and (−1.0, Incorrect, absent) otherwise; the similarity
collaborator is never consulted and no similarity value is returned. -/
theorem c6_factual_binary
    (sim sim2 : PyVal → String → Except Unit Rat)
    (row questions_dict raw question_entries : List (String × PyVal))
    (qid resp : String) (b : Bool)
    (hqid : lookupStr row "question_id" = some (.str qid))
    (hfound : lookupStr questions_dict qid = some (.dict question_entries))
    (htruthy : pyTruthy (.dict question_entries) = true)
    (hraw : dictGetD row "raw_response" (.dict []) = .dict raw)
    (hresp : dictGetD raw "response" (.str "") = .str resp)
    (hnemp : strLower resp ≠ "")
    (herr : hasKey raw "error" = false)
    (hidk : checkIdk (strLower resp) = false)
    (hcorrect : isAnswerCorrect question_entries (strLower resp) = .ok b)
    (hdom : lookupStr question_entries "domain" = some (.str "Factual Accuracy")) :
    score_response sim row questions_dict =
      .ok (if b then (1, "Correct", none) else (-1, "Incorrect", none)) ∧
    score_response sim row questions_dict = score_response sim2 row questions_dict := by
  constructor
  · unfold score_response pyDictGet
    rw [hqid]
    cases b <;>
      simp [hfound, htruthy, hraw, hresp, hnemp, herr, hidk, hcorrect, hdom, pyHashable,
        SCORE_CORRECT, SCORE_INCORRECT]
  · unfold score_response pyDictGet
    rw [hqid]
    simp [hfound, htruthy, hraw, hresp, hnemp, herr, hidk, hcorrect, hdom, pyHashable]

/-- Witness for C6: the spec's own example, `42` against
`"The answer is 42."`, and a non-matching response. -/
theorem c6_witness :
    score_response (fun _ _ => .ok 0)
      [("question_id", PyVal.str "q"),
       ("raw_response", PyVal.dict [("response", PyVal.str "The answer is 42.")])]
      [("q", PyVal.dict [("domain", PyVal.str "Factual Accuracy"),
        ("answer_format_regex", PyVal.str "42")])] =
      .ok (1, "Correct", none) ∧
    score_response (fun _ _ => .ok 0)
      [("question_id", PyVal.str "q"),
       ("raw_response", PyVal.dict [("response", PyVal.str "The answer is 41.")])]
      [("q", PyVal.dict [("domain", PyVal.str "Factual Accuracy"),
        ("answer_format_regex", PyVal.str "42")])] =
      .ok (-1, "Incorrect", none) :=
  ⟨(c6_factual_binary (fun _ _ => .ok 0) (fun _ _ => .ok 1)
      [("question_id", PyVal.str "q"),
       ("raw_response", PyVal.dict [("response", PyVal.str "The answer is 42.")])]
      [("q", PyVal.dict [("domain", PyVal.str "Factual Accuracy"),
        ("answer_format_regex", PyVal.str "42")])]
      [("response", PyVal.str "The answer is 42.")]
      [("domain", PyVal.str "Factual Accuracy"), ("answer_format_regex", PyVal.str "42")]
      "q" "The answer is 42." true
      rfl rfl rfl rfl rfl (by decide) rfl rfl rfl rfl).1,
   (c6_factual_binary (fun _ _ => .ok 0) (fun _ _ => .ok 1)
      [("question_id", PyVal.str "q"),
       ("raw_response", PyVal.dict [("response", PyVal.str "The answer is 41.")])]
      [("q", PyVal.dict [("domain", PyVal.str "Factual Accuracy"),
        ("answer_format_regex", PyVal.str "42")])]
      [("response", PyVal.str "The answer is 41.")]
      [("domain", PyVal.str "Factual Accuracy"), ("answer_format_regex", PyVal.str "42")]
      "q" "The answer is 41." false
      rfl rfl rfl rfl rfl (by decide) rfl rfl rfl rfl).1⟩

/-- C7: a Procedural Reasoning question with no gold-standard reasoning
entry yields (0.0, MissingGoldReasoning, absent) for every response that
passed the early-exit and IDK checks; the similarity collaborator is never
consulted. -/
theorem c7_missing_gold_reasoning
    (sim sim2 : PyVal → String → Except Unit Rat)
    (row questions_dict raw question_entries : List (String × PyVal))
    (qid resp rgx : String)
    (hqid : lookupStr row "question_id" = some (.str qid))
    (hfound : lookupStr questions_dict qid = some (.dict question_entries))
    (htruthy : pyTruthy (.dict question_entries) = true)
    (hraw : dictGetD row "raw_response" (.dict []) = .dict raw)
    (hresp : dictGetD raw "response" (.str "") = .str resp)
    (hnemp : strLower resp ≠ "")
    (herr : hasKey raw "error" = false)
    (hidk : checkIdk (strLower resp) = false)
    (hreg : dictGetD question_entries "answer_format_regex" (.str "^$") = .str rgx)
    (hvalid : regexValid (strLower rgx) = true)
    (hdom : lookupStr question_entries "domain" = some (.str "Procedural Reasoning"))
    (hgold : lookupStr question_entries "gold_standard_reasoning" = none) :
    score_response sim row questions_dict = .ok (0, "MissingGoldReasoning", none) ∧
    score_response sim row questions_dict = score_response sim2 row questions_dict := by
  obtain ⟨b, hps⟩ := pySearch_isOk (strLower rgx) (strLower resp) hvalid
  have hic : isAnswerCorrect question_entries (strLower resp) = .ok b := by
    unfold isAnswerCorrect
    simp only [hreg, hps]
  constructor <;>
    (unfold score_response pyDictGet
     rw [hqid]
     simp [hfound, htruthy, hraw, hresp, hnemp, herr, hidk, hic, hdom, hgold,
       pyHashable, SCORE_AMBIGUOUS])

/-- Witness for C7 at a concrete input. -/
theorem c7_witness :
    score_response (fun _ _ => .ok 0)
      [("question_id", PyVal.str "q"),
       ("raw_response", PyVal.dict [("response", PyVal.str "The result is 10")])]
      [("q", PyVal.dict [("domain", PyVal.str "Procedural Reasoning"),
        ("answer_format_regex", PyVal.str "10")])] =
      .ok (0, "MissingGoldReasoning", none) :=
  (c7_missing_gold_reasoning (fun _ _ => .ok 0) (fun _ _ => .ok 1)
    [("question_id", PyVal.str "q"),
     ("raw_response", PyVal.dict [("response", PyVal.str "The result is 10")])]
    [("q", PyVal.dict [("domain", PyVal.str "Procedural Reasoning"),
      ("answer_format_regex", PyVal.str "10")])]
    [("response", PyVal.str "The result is 10")]
    [("domain", PyVal.str "Procedural Reasoning"), ("answer_format_regex", PyVal.str "10")]
    "q" "The result is 10" "10"
    rfl rfl rfl rfl rfl (by decide) rfl rfl rfl rfl rfl rfl).1

/-- C8: when the similarity computation fails, the failure is absorbed at
the single-response boundary and converted into (0.0, SimilarityError,
absent); nothing is re-raised to the caller. -/
theorem c8_similarity_error_absorbed
    (sim : PyVal → String → Except Unit Rat)
    (row questions_dict raw question_entries : List (String × PyVal))
    (qid resp : String) (gold : PyVal) (b : Bool)
    (hqid : lookupStr row "question_id" = some (.str qid))
    (hfound : lookupStr questions_dict qid = some (.dict question_entries))
    (htruthy : pyTruthy (.dict question_entries) = true)
    (hraw : dictGetD row "raw_response" (.dict []) = .dict raw)
    (hresp : dictGetD raw "response" (.str "") = .str resp)
    (hnemp : strLower resp ≠ "")
    (herr : hasKey raw "error" = false)
    (hidk : checkIdk (strLower resp) = false)
    (hcorrect : isAnswerCorrect question_entries (strLower resp) = .ok b)
    (hdom : lookupStr question_entries "domain" = some (.str "Procedural Reasoning"))
    (hgold : lookupStr question_entries "gold_standard_reasoning" = some gold)
    (hgoldt : pyTruthy gold = true)
    (hsim : sim gold (strLower resp) = .error ()) :
    score_response sim row questions_dict = .ok (0, "SimilarityError", none) := by
  unfold score_response pyDictGet
  rw [hqid]
  simp [hfound, htruthy, hraw, hresp, hnemp, herr, hidk, hcorrect, hdom, hgold,
    hgoldt, hsim, pyHashable, SCORE_AMBIGUOUS]

/-- Witness for C8 at a concrete input with an always-failing similarity
collaborator. -/
theorem c8_witness :
    score_response (fun _ _ => .error ())
      [("question_id", PyVal.str "q"),
       ("raw_response", PyVal.dict [("response", PyVal.str "The result is 10")])]
      [("q", PyVal.dict [("domain", PyVal.str "Procedural Reasoning"),
        ("gold_standard_reasoning", PyVal.str "add then divide"),
        ("answer_format_regex", PyVal.str "10")])] =
      .ok (0, "SimilarityError", none) :=
  c8_similarity_error_absorbed (fun _ _ => .error ())
    [("question_id", PyVal.str "q"),
     ("raw_response", PyVal.dict [("response", PyVal.str "The result is 10")])]
    [("q", PyVal.dict [("domain", PyVal.str "Procedural Reasoning"),
      ("gold_standard_reasoning", PyVal.str "add then divide"),
      ("answer_format_regex", PyVal.str "10")])]
    [("response", PyVal.str "The result is 10")]
    [("domain", PyVal.str "Procedural Reasoning"),
     ("gold_standard_reasoning", PyVal.str "add then divide"),
     ("answer_format_regex", PyVal.str "10")]
    "q" "The result is 10" (PyVal.str "add then divide") true
    rfl rfl rfl rfl rfl (by decide) rfl rfl rfl rfl rfl rfl rfl

/-- Every cell of the decision tree carries a score in the reachable set,
and none carries −0.5. -/
theorem reasoningTable_score_range (b : Bool) (s : Rat) :
    ((reasoningTable b s).1 = 1 ∨ (reasoningTable b s).1 = 1/2 ∨
      (reasoningTable b s).1 = 1/4 ∨ (reasoningTable b s).1 = 0 ∨
      (reasoningTable b s).1 = -1) ∧
    (reasoningTable b s).1 ≠ SCORE_INCORRECT_GUESS := by
  unfold reasoningTable SCORE_CORRECT SCORE_CORRECT_PROCESS SCORE_AMBIGUOUS
    SCORE_FABRICATION SCORE_INCORRECT SCORE_INCORRECT_GUESS
  cases b <;> split_ifs <;> constructor <;> norm_num

/-- C9: every outcome the function returns carries a score in
{1, 0.5, 0.25, 0, −1}; the configured −0.5 (`SCORE_INCORRECT_GUESS`) is
unreachable in every branch. -/
theorem c9_score_range
    (sim : PyVal → String → Except Unit Rat)
    (row questions_dict : List (String × PyVal)) (out : Outcome)
    (hok : score_response sim row questions_dict = .ok out) :
    (out.1 = 1 ∨ out.1 = 1/2 ∨ out.1 = 1/4 ∨ out.1 = 0 ∨ out.1 = -1) ∧
    out.1 ≠ SCORE_INCORRECT_GUESS := by
  unfold score_response pyDictGet at hok
  repeat' split at hok
  all_goals try (exfalso; exact Except.noConfusion hok)
  all_goals try simp only [] at hok
  repeat' split at hok
  all_goals try (exfalso; exact Except.noConfusion hok)
  all_goals injection hok with h1
  all_goals subst h1
  all_goals try exact reasoningTable_score_range _ _
  all_goals exact ⟨by norm_num [SCORE_CORRECT, SCORE_CORRECT_PROCESS, SCORE_IDK,
    SCORE_AMBIGUOUS, SCORE_FABRICATION, SCORE_INCORRECT],
    by norm_num [SCORE_CORRECT, SCORE_CORRECT_PROCESS, SCORE_IDK, SCORE_AMBIGUOUS,
      SCORE_FABRICATION, SCORE_INCORRECT, SCORE_INCORRECT_GUESS]⟩

/-- Witness for C9 at a concrete input whose outcome is (1, Correct). -/
theorem c9_witness :
    (((1 : Rat), "Correct", (none : Option Rat)).1 = 1 ∨
      ((1 : Rat), "Correct", (none : Option Rat)).1 = 1/2 ∨
      ((1 : Rat), "Correct", (none : Option Rat)).1 = 1/4 ∨
      ((1 : Rat), "Correct", (none : Option Rat)).1 = 0 ∨
      ((1 : Rat), "Correct", (none : Option Rat)).1 = -1) ∧
    ((1 : Rat), "Correct", (none : Option Rat)).1 ≠ SCORE_INCORRECT_GUESS :=
  c9_score_range (fun _ _ => .ok 0)
    [("question_id", PyVal.str "q"),
     ("raw_response", PyVal.dict [("response", PyVal.str "The answer is 42.")])]
    [("q", PyVal.dict [("domain", PyVal.str "Factual Accuracy"),
      ("answer_format_regex", PyVal.str "42")])]
    (1, "Correct", none) rfl

/-- C10: a record with no `raw_response` field at all defaults to an empty
dict, passes the dict-shape check, and then fails the empty-text check:
the outcome is `APIError`, not `MalformedResponse`. -/
theorem c10_absent_raw_response
    (sim : PyVal → String → Except Unit Rat)
    (row questions_dict : List (String × PyVal)) (qid : String) (question_data : PyVal)
    (hqid : lookupStr row "question_id" = some (.str qid))
    (hfound : lookupStr questions_dict qid = some question_data)
    (htruthy : pyTruthy question_data = true)
    (hnoraw : lookupStr row "raw_response" = none) :
    score_response sim row questions_dict = .ok (0, "APIError", none) := by
  have h0 : strLower "" = "" := rfl
  unfold score_response pyDictGet dictGetD
  rw [hqid]
  simp [hfound, htruthy, hnoraw, pyHashable, lookupStr, h0]

/-- Witness for C10 at a concrete input whose `raw_response` is absent. -/
theorem c10_witness :
    score_response (fun _ _ => .ok 0) [("question_id", PyVal.str "q")]
      [("q", PyVal.dict [("domain", PyVal.str "Factual Accuracy")])] =
      .ok (0, "APIError", none) :=
  c10_absent_raw_response (fun _ _ => .ok 0)
    [("question_id", PyVal.str "q")]
    [("q", PyVal.dict [("domain", PyVal.str "Factual Accuracy")])]
    "q" (PyVal.dict [("domain", PyVal.str "Factual Accuracy")])
    rfl rfl rfl rfl
